import Mathlib

/-!
# config-get: a shallow embedding of `src/config-get.c`

The program looks one key up in a libconfig document and prints the scalar it
finds, after reconciling the scalar's category with the category the caller
expects under one of four match policies.

Conventions of the embedding:

* C strings are `String`s (a C string holds no NUL, so `strcmp(a, b) == 0` is
  equality of the two strings);
* everything the program does to the outside world is recorded, in program
  order, as a list of `Event`s: a write to one of the two standard streams,
  a libconfig load, the release of the document;
* a C function that writes and returns a value becomes a function returning
  the events and the value;
* libconfig, `printf("%g")` and `getopt_long` are not part of the program:
  the document is the function `config_lookup` computes on it, the `%g`
  rendering is a parameter, and `getopt_long` is described by the sequence of
  results its successive calls return.
-/

namespace ConfigGet

/-! ## Data model -/

/-- The C `enum value_type`. -/
inductive value_type
  | vt_unspec
  | vt_number
  | vt_string
  | vt_bool
  deriving DecidableEq

/-- The C `enum match_type`. -/
inductive match_type
  | mt_strict
  | mt_loose
  | mt_warn
  | mt_ignore
  deriving DecidableEq

/-- Value of `EXIT_SUCCESS` in `<stdlib.h>`. -/
def EXIT_SUCCESS : Int := 0

/-- Value of `EXIT_FAILURE` in `<stdlib.h>`. -/
def EXIT_FAILURE : Int := 1

/-- The two output streams the program writes to. -/
inductive FILE
  | stdout
  | stderr
  deriving DecidableEq

/-- One observable action of the program. -/
inductive Event
  /-- The formatted text of one `printf` / `fprintf` call. -/
  | write (dest : FILE) (text : String)
  /-- One call of `config_read_file` (`some fname`) or `config_read` on
  standard input (`none`). -/
  | config_read (fname : Option String)
  /-- The call `config_destroy(cfg); free(cfg)`. -/
  | config_destroy
  deriving DecidableEq

/-- How a C function that may trip an `assert` ends. -/
inductive Status
  | exited (code : Int)
  | aborted
  deriving DecidableEq

/-- Events of a run together with the way it ended. -/
structure Run where
  events : List Event
  status : Status
  deriving DecidableEq

/-- The texts written to `dest`, in order. -/
def written (dest : FILE) : List Event → List String
  | [] => []
  | Event.write d text :: es =>
    if d = dest then text :: written dest es else written dest es
  | _ :: es => written dest es

/-- The libconfig loads attempted, in order. -/
def loads : List Event → List (Option String)
  | [] => []
  | Event.config_read fname :: es => fname :: loads es
  | _ :: es => loads es

/-! ## libconfig settings -/

/-- The `CONFIG_TYPE_*` constants of `<libconfig.h>`. -/
inductive config_type
  | CONFIG_TYPE_NONE
  | CONFIG_TYPE_GROUP
  | CONFIG_TYPE_INT
  | CONFIG_TYPE_INT64
  | CONFIG_TYPE_FLOAT
  | CONFIG_TYPE_STRING
  | CONFIG_TYPE_BOOL
  | CONFIG_TYPE_ARRAY
  | CONFIG_TYPE_LIST
  deriving DecidableEq

open config_type

/-- A setting as the program sees it: its native kind and, for a scalar, the
value the matching `config_setting_get_*` returns. A double is carried as
its binary64 bit pattern; a boolean is the `int` libconfig returns. -/
structure config_setting_t where
  type : config_type
  ival : Int := 0
  llval : Int := 0
  fval : Nat := 0
  sval : String := ""
  deriving DecidableEq

/-- A loaded document, given by what `config_lookup` returns on it for each
path (`none` is `NULL`). -/
abbrev config_t := String → Option config_setting_t

def config_lookup (cfg : config_t) (key : String) : Option config_setting_t :=
  cfg key

def config_setting_type (setting : config_setting_t) : config_type :=
  setting.type

/-- The libconfig macro `config_setting_is_scalar`. -/
def config_setting_is_scalar (setting : config_setting_t) : Bool :=
  match setting.type with
  | CONFIG_TYPE_BOOL | CONFIG_TYPE_INT | CONFIG_TYPE_INT64
  | CONFIG_TYPE_FLOAT | CONFIG_TYPE_STRING => true
  | _ => false

/-! ## The program, up to `print_key` -/

def usage_text (progname : String) : String :=
  "Usage: " ++ progname ++ " [opts] key\n" ++
  "\n" ++
  "Options:\n" ++
  "  -h, --help         show this help text and exit\n" ++
  "  -f, --file=FILE    path to configuration file\n" ++
  "  -t, --type=TYPE    expected type of value\n" ++
  "  -m, --match=MATCH  type matching behavior\n" ++
  "\n" ++
  "For more information, see `man 1 config-get`\n"

def print_usage (progname : String) (dest : FILE) : List Event :=
  [Event.write dest (usage_text progname)]

/-- Returns the return code and the new contents of `*out`. -/
def parse_match_type (str : String) (out : match_type) : Int × match_type :=
  if "strict" = str then (0, match_type.mt_strict)
  else if "loose" = str then (0, match_type.mt_loose)
  else if "warn" = str then (0, match_type.mt_warn)
  else if "ignore" = str then (0, match_type.mt_ignore)
  else (1, out)

/-- Returns the return code and the new contents of `*out`. -/
def parse_value_type (str : String) (out : value_type) : Int × value_type :=
  if "number" = str then (0, value_type.vt_number)
  else if "string" = str then (0, value_type.vt_string)
  else if "boolean" = str then (0, value_type.vt_bool)
  else (1, out)

def value_type_string : value_type → String
  | value_type.vt_unspec => "unspecified"
  | value_type.vt_number => "number"
  | value_type.vt_string => "string"
  | value_type.vt_bool => "boolean"

/-- The events of `print_setting`, or `none` when the assertion
`config_setting_is_scalar(setting)` fails (the pointer itself is never
`NULL` here). `printf_g` is the `%g` rendering of a double. -/
def print_setting (printf_g : Nat → String) (setting : config_setting_t) :
    Option (List Event) :=
  if config_setting_is_scalar setting then
    match config_setting_type setting with
    | CONFIG_TYPE_INT =>
      some [Event.write FILE.stdout (toString setting.ival ++ "\n")]
    | CONFIG_TYPE_INT64 =>
      some [Event.write FILE.stdout (toString setting.llval ++ "\n")]
    | CONFIG_TYPE_FLOAT =>
      some [Event.write FILE.stdout (printf_g setting.fval ++ "\n")]
    | CONFIG_TYPE_STRING =>
      some [Event.write FILE.stdout (setting.sval ++ "\n")]
    | CONFIG_TYPE_BOOL =>
      some [Event.write FILE.stdout
        ((if setting.ival ≠ 0 then "true" else "false") ++ "\n")]
    | _ => some []
  else none

/-- The `switch` at the top of `print_key` that sets `actual_type`; `none`
is its `default:` branch. -/
def actual_type_of : config_type → Option value_type
  | CONFIG_TYPE_INT => some value_type.vt_number
  | CONFIG_TYPE_INT64 => some value_type.vt_number
  | CONFIG_TYPE_FLOAT => some value_type.vt_number
  | CONFIG_TYPE_STRING => some value_type.vt_string
  | CONFIG_TYPE_BOOL => some value_type.vt_bool
  | _ => none

/-- The last two statements of `print_key`: `print_setting(setting); return
exit_code;`, after the events `pre`. -/
def print_and_return (printf_g : Nat → String) (setting : config_setting_t)
    (pre : List Event) (exit_code : Int) : Run :=
  match print_setting printf_g setting with
  | none => ⟨pre, Status.aborted⟩
  | some printed => ⟨pre ++ printed, Status.exited exit_code⟩

def print_key (printf_g : Nat → String) (cfg : config_t) (key : String)
    (expect_type : value_type) (mtch : match_type) : Run :=
  match config_lookup cfg key with
  | none =>
    ⟨[Event.write FILE.stderr ("Key (" ++ key ++ ") not in config.\n")],
      Status.exited EXIT_FAILURE⟩
  | some setting =>
    match actual_type_of (config_setting_type setting) with
    | none =>
      ⟨[Event.write FILE.stderr "Found aggregate setting.\n"],
        Status.exited EXIT_FAILURE⟩
    | some actual_type =>
      if actual_type ≠ expect_type ∧ expect_type ≠ value_type.vt_unspec then
        match mtch with
        | match_type.mt_strict => ⟨[], Status.exited EXIT_FAILURE⟩
        | match_type.mt_loose =>
          print_and_return printf_g setting [] EXIT_FAILURE
        | match_type.mt_warn =>
          print_and_return printf_g setting
            [Event.write FILE.stderr
              ("Expected type (" ++ value_type_string expect_type ++
                ") does not match found (" ++ value_type_string actual_type ++
                ").\n")]
            EXIT_SUCCESS
        | match_type.mt_ignore =>
          print_and_return printf_g setting [] EXIT_SUCCESS
      else print_and_return printf_g setting [] EXIT_SUCCESS

/-! ## `getopt_long`

`main` calls `getopt_long(argc, argv, "f:hm:t:", long_opts, &opt_index)` until
it returns `-1`. With this option string and table a call returns `'f'`,
`'m'` or `'t'` with `optarg` set, `'h'`, or `'?'` after writing a diagnostic
to standard error (`opterr` is left at 1). `getopt_calls` lists what the
successive calls return for a command line, following glibc: an element
`--` ends the options, `-` and elements not starting with `-` are operands
(passed over and moved behind the options, or ending the scan when
`POSIXLY_CORRECT` is set), `--name[=value]` is looked up in the table by exact
name and then by abbreviation, any other `-xyz` is a cluster of short
options, and a required argument is the rest of the element or else the
next element, whatever it looks like. -/

/-- What one call of `getopt_long` returns to `main`, other than `-1`. -/
inductive getopt_ret
  | f (optarg : String)
  | h
  | m (optarg : String)
  | t (optarg : String)
  /-- The value `'?'`, with the diagnostic written to standard error. -/
  | unknown (diag : String)
  deriving DecidableEq

/-- One row of `long_opts` (`flag` is 0 in every row). -/
structure long_option where
  name : String
  has_arg : Bool
  val : Char

def long_opts : List long_option :=
  [⟨"file", true, 'f'⟩, ⟨"help", false, 'h'⟩, ⟨"match", true, 'm'⟩,
   ⟨"type", true, 't'⟩]

/-- The return for option character `val` of the option string. -/
def getopt_ret.of_val (val : Char) (optarg : String) : getopt_ret :=
  if val = 'f' then getopt_ret.f optarg
  else if val = 'm' then getopt_ret.m optarg
  else if val = 't' then getopt_ret.t optarg
  else getopt_ret.h

/-- The element `--body` with `next` the element after it, if any. Returns
the result and whether `next` was taken as the argument. -/
def process_long_option (progname : String) (body : List Char)
    (next : Option String) : getopt_ret × Bool :=
  let name := body.takeWhile (fun c => c ≠ '=')
  let nameend := body.dropWhile (fun c => c ≠ '=')
  let found : Option (Option long_option) :=
    match long_opts.find? (fun p => p.name.toList = name) with
    | some p => some (some p)
    | none =>
      match long_opts.filter (fun p => name.isPrefixOf p.name.toList) with
      | [] => some none
      | [p] => some (some p)
      | _ => none
  match found with
  | none =>
    (getopt_ret.unknown
      (progname ++ ": option '--" ++ String.mk body ++
        "' is ambiguous; possibilities:" ++
        String.join ((long_opts.filter
          (fun p => name.isPrefixOf p.name.toList)).map
            (fun p => " '--" ++ p.name ++ "'")) ++ "\n"), false)
  | some none =>
    (getopt_ret.unknown
      (progname ++ ": unrecognized option '--" ++ String.mk body ++ "'\n"),
      false)
  | some (some p) =>
    match nameend with
    | _ :: value =>
      if p.has_arg then (getopt_ret.of_val p.val (String.mk value), false)
      else
        (getopt_ret.unknown
          (progname ++ ": option '--" ++ p.name ++
            "' doesn't allow an argument\n"), false)
    | [] =>
      if p.has_arg then
        match next with
        | some arg => (getopt_ret.of_val p.val arg, true)
        | none =>
          (getopt_ret.unknown
            (progname ++ ": option '--" ++ p.name ++
              "' requires an argument\n"), false)
      else (getopt_ret.of_val p.val "", false)

/-- The short options of one element `-cluster`, with `next` the element
after it, if any. Returns the results and whether `next` was taken as an
argument. -/
def short_options (progname : String) :
    List Char → Option String → List getopt_ret × Bool
  | [], _ => ([], false)
  | c :: cs, next =>
    if c = 'h' then
      let (rs, used) := short_options progname cs next
      (getopt_ret.h :: rs, used)
    else if c = 'f' ∨ c = 'm' ∨ c = 't' then
      match cs, next with
      | _ :: _, _ => ([getopt_ret.of_val c (String.mk cs)], false)
      | [], some arg => ([getopt_ret.of_val c arg], true)
      | [], none =>
        ([getopt_ret.unknown
          (progname ++ ": option requires an argument -- '" ++
            String.singleton c ++ "'\n")], false)
    else
      let (rs, used) := short_options progname cs next
      (getopt_ret.unknown
        (progname ++ ": invalid option -- '" ++ String.singleton c ++ "'\n")
        :: rs, used)

/-- The results of the successive `getopt_long` calls on the arguments after
`argv[0]`, and `argv[optind..argc)` once `-1` has been returned. `skip` says
that the first element was already taken as an option's argument;
`nonopts` are the operands passed over so far. -/
def getopt_calls (posixly_correct : Bool) (progname : String) :
    Bool → List String → List String → List getopt_ret × List String
  | _, [], nonopts => ([], nonopts)
  | true, _ :: rest, nonopts =>
    getopt_calls posixly_correct progname false rest nonopts
  | false, arg :: rest, nonopts =>
    if arg = "--" then ([], nonopts ++ rest)
    else
      match arg.toList with
      | '-' :: '-' :: body =>
        let (r, used) := process_long_option progname body rest.head?
        let (rs, operands) :=
          getopt_calls posixly_correct progname used rest nonopts
        (r :: rs, operands)
      | '-' :: c :: cs =>
        let (rs₁, used) := short_options progname (c :: cs) rest.head?
        let (rs, operands) :=
          getopt_calls posixly_correct progname used rest nonopts
        (rs₁ ++ rs, operands)
      | _ =>
        if posixly_correct then ([], nonopts ++ arg :: rest)
        else getopt_calls posixly_correct progname false rest (nonopts ++ [arg])

/-! ## `main` -/

/-- What the run depends on besides the command line: the `%g` rendering,
whether `POSIXLY_CORRECT` is set, and what libconfig makes of the named file
(`some fname`) or of standard input (`none`): a document, or an error text
and line. -/
structure World where
  printf_g : Nat → String
  posixly_correct : Bool
  source : Option String → Except (String × Int) config_t

/-- Returns the events and the pointer returned (`none` is `NULL`). -/
def read_config (w : World) (fname : Option String) :
    List Event × Option config_t :=
  match w.source fname with
  | Except.ok cfg => ([Event.config_read fname], some cfg)
  | Except.error (text, line) =>
    ([Event.config_read fname,
      Event.write FILE.stderr
        ("Error reading config: " ++ text ++ " (line " ++ toString line ++
          ")\n")],
      none)

/-- The locals of `main` that the option loop assigns. -/
structure main_vars where
  filename : Option String
  expect_type : value_type
  mtch : match_type

/-- The `for (;;)` loop of `main` over the results of the `getopt_long`
calls still to come. Returns the events and either the exit code of a
`return` inside the loop or the locals after the `break`. -/
def option_loop (progname : String) :
    List getopt_ret → main_vars → List Event × (Int ⊕ main_vars)
  | [], v => ([], Sum.inr v)
  | getopt_ret.f optarg :: rs, v =>
    option_loop progname rs { v with filename := some optarg }
  | getopt_ret.h :: _, _ =>
    (print_usage progname FILE.stdout, Sum.inl EXIT_SUCCESS)
  | getopt_ret.m optarg :: rs, v =>
    let (rc, mtch) := parse_match_type optarg v.mtch
    if rc ≠ 0 then
      ([Event.write FILE.stderr
        ("Unrecognized match type: " ++ optarg ++ "\n")],
        Sum.inl EXIT_FAILURE)
    else option_loop progname rs { v with mtch := mtch }
  | getopt_ret.t optarg :: rs, v =>
    let (rc, expect_type) := parse_value_type optarg v.expect_type
    if rc ≠ 0 then
      ([Event.write FILE.stderr
        ("Unrecognized value type: " ++ optarg ++ "\n")],
        Sum.inl EXIT_FAILURE)
    else option_loop progname rs { v with expect_type := expect_type }
  | getopt_ret.unknown diag :: rs, v =>
    let (es, r) := option_loop progname rs v
    (Event.write FILE.stderr diag :: es, r)

/-- The program on `argv[0] = progname` and `argv[1..argc) = args`. -/
def main (w : World) (progname : String) (args : List String) : Run :=
  let (rets, operands) :=
    getopt_calls w.posixly_correct progname false args []
  match option_loop progname rets ⟨none, value_type.vt_unspec, match_type.mt_warn⟩ with
  | (es, Sum.inl code) => ⟨es, Status.exited code⟩
  | (es, Sum.inr v) =>
    match operands with
    | [] => ⟨es ++ print_usage progname FILE.stderr, Status.exited EXIT_FAILURE⟩
    | key :: more =>
      match more with
      | extra :: _ =>
        ⟨es ++ Event.write FILE.stderr ("Unexpected argument: " ++ extra ++ "\n")
            :: print_usage progname FILE.stderr,
          Status.exited EXIT_FAILURE⟩
      | [] =>
        match read_config w v.filename with
        | (es₁, none) => ⟨es ++ es₁, Status.exited EXIT_FAILURE⟩
        | (es₁, some cfg) =>
          match print_key w.printf_g cfg key v.expect_type v.mtch with
          | ⟨es₂, Status.exited exit_code⟩ =>
            ⟨es ++ es₁ ++ es₂ ++ [Event.config_destroy], Status.exited exit_code⟩
          | ⟨es₂, Status.aborted⟩ => ⟨es ++ es₁ ++ es₂, Status.aborted⟩

/-! ## Sample inputs -/

/-- The document holding the single setting `name = "x";`. -/
def doc_name : config_t := fun key =>
  if key = "name" then some { type := CONFIG_TYPE_STRING, sval := "x" } else none

/-- The document holding `port = 8080;` and the group `group`. -/
def doc_port : config_t := fun key =>
  if key = "port" then some { type := CONFIG_TYPE_INT, ival := 8080 }
  else if key = "group" then some { type := CONFIG_TYPE_GROUP }
  else none

/-- A world in which standard input holds `doc_name`, the file `port.cfg`
holds `doc_port` and nothing else can be read. -/
def world0 : World where
  printf_g := fun _ => "0"
  posixly_correct := false
  source := fun fname =>
    match fname with
    | none => Except.ok doc_name
    | some path =>
      if path = "port.cfg" then Except.ok doc_port
      else Except.error ("file I/O error", 0)

/-! ## Vocabulary of the statements about `main` -/

/-- An option result on which the loop of `main` returns `EXIT_FAILURE`:
`-m` or `-t` with a value its parser does not accept. -/
def rejected : getopt_ret → Bool
  | getopt_ret.m optarg =>
    decide ((parse_match_type optarg match_type.mt_warn).1 ≠ 0)
  | getopt_ret.t optarg =>
    decide ((parse_value_type optarg value_type.vt_unspec).1 ≠ 0)
  | _ => false

/-! ## Helper lemmas -/

open value_type match_type

/-- The classification never yields `vt_unspec`. -/
theorem actual_type_ne_unspec (ty : config_type) :
    actual_type_of ty ≠ some vt_unspec := by
  cases ty <;> simp [actual_type_of]

/-! ## `print_key` -/

/-- C2. When the key is found, the setting is a scalar and its category
differs from a specified expected category, `print_key` under `mt_strict`
writes nothing at all (so nothing to standard output) and returns
`EXIT_FAILURE`. -/
theorem print_key_strict_rejects (printf_g : Nat → String)
    (cfg : config_t) (key : String) (setting : config_setting_t)
    (actual expected : value_type)
    (hfound : config_lookup cfg key = some setting)
    (hscalar : actual_type_of (config_setting_type setting) = some actual)
    (hdiff : actual ≠ expected) (hspec : expected ≠ vt_unspec) :
    print_key printf_g cfg key expected mt_strict =
        ⟨[], Status.exited EXIT_FAILURE⟩ ∧
      written FILE.stdout
        (print_key printf_g cfg key expected mt_strict).events = [] := by
  have h : print_key printf_g cfg key expected mt_strict =
      ⟨[], Status.exited EXIT_FAILURE⟩ := by
    simp only [print_key, hfound, hscalar, if_pos (And.intro hdiff hspec)]
  exact ⟨h, by rw [h]; rfl⟩

theorem print_key_strict_rejects_witness :
    print_key world0.printf_g doc_name "name" vt_number mt_strict =
        ⟨[], Status.exited EXIT_FAILURE⟩ ∧
      written FILE.stdout
        (print_key world0.printf_g doc_name "name" vt_number mt_strict).events = [] :=
  print_key_strict_rejects world0.printf_g doc_name "name"
    { type := CONFIG_TYPE_STRING, sval := "x" } vt_string vt_number
    (by decide) (by decide) (by decide) (by decide)

/-- C6. The classification in `print_key` sends the integer, 64-bit integer
and floating-point kinds to `vt_number`, the string kind to `vt_string` and
the boolean kind to `vt_bool`, and never yields `vt_unspec`; for a found
setting of any other kind `print_key` writes `Found aggregate setting.` to
standard error and nothing else, and returns `EXIT_FAILURE`, whatever the
expected category and the policy. -/
theorem print_key_classifies (printf_g : Nat → String) (cfg : config_t)
    (key : String) (setting : config_setting_t)
    (hfound : config_lookup cfg key = some setting)
    (hkind : config_setting_type setting ∉
      [CONFIG_TYPE_INT, CONFIG_TYPE_INT64, CONFIG_TYPE_FLOAT,
        CONFIG_TYPE_STRING, CONFIG_TYPE_BOOL]) :
    actual_type_of CONFIG_TYPE_INT = some vt_number ∧
    actual_type_of CONFIG_TYPE_INT64 = some vt_number ∧
    actual_type_of CONFIG_TYPE_FLOAT = some vt_number ∧
    actual_type_of CONFIG_TYPE_STRING = some vt_string ∧
    actual_type_of CONFIG_TYPE_BOOL = some vt_bool ∧
    (∀ ty, actual_type_of ty ≠ some vt_unspec) ∧
    actual_type_of (config_setting_type setting) = none ∧
    ∀ (expected : value_type) (mtch : match_type),
      print_key printf_g cfg key expected mtch =
          ⟨[Event.write FILE.stderr "Found aggregate setting.\n"],
            Status.exited EXIT_FAILURE⟩ ∧
        written FILE.stdout
          (print_key printf_g cfg key expected mtch).events = [] := by
  have hnone : actual_type_of (config_setting_type setting) = none := by
    generalize config_setting_type setting = ty at hkind
    cases ty <;> simp [actual_type_of] at hkind ⊢
  refine ⟨rfl, rfl, rfl, rfl, rfl, actual_type_ne_unspec, hnone, ?_⟩
  intro expected mtch
  have h : print_key printf_g cfg key expected mtch =
      ⟨[Event.write FILE.stderr "Found aggregate setting.\n"],
        Status.exited EXIT_FAILURE⟩ := by
    simp only [print_key, hfound, hnone]
  exact ⟨h, by rw [h]; rfl⟩

theorem print_key_classifies_witness :
    actual_type_of CONFIG_TYPE_INT = some vt_number ∧
    actual_type_of CONFIG_TYPE_INT64 = some vt_number ∧
    actual_type_of CONFIG_TYPE_FLOAT = some vt_number ∧
    actual_type_of CONFIG_TYPE_STRING = some vt_string ∧
    actual_type_of CONFIG_TYPE_BOOL = some vt_bool ∧
    (∀ ty, actual_type_of ty ≠ some vt_unspec) ∧
    actual_type_of (config_setting_type { type := CONFIG_TYPE_GROUP }) = none ∧
    ∀ (expected : value_type) (mtch : match_type),
      print_key world0.printf_g doc_port "group" expected mtch =
          ⟨[Event.write FILE.stderr "Found aggregate setting.\n"],
            Status.exited EXIT_FAILURE⟩ ∧
        written FILE.stdout
          (print_key world0.printf_g doc_port "group" expected mtch).events = [] :=
  print_key_classifies world0.printf_g doc_port "group"
    { type := CONFIG_TYPE_GROUP } (by decide) (by decide)

/-- C10. `parse_value_type` returns 0 exactly on `number`, `string` and
`boolean`, storing `vt_number`, `vt_string` and `vt_bool`; `parse_match_type`
returns 0 exactly on `strict`, `loose`, `warn` and `ignore`, storing the
policy of that name; on every other string each returns 1 and leaves the
output as it was, and the option loop of `main` then returns `EXIT_FAILURE`,
which is not 0. -/
theorem parsers_accept_exactly (s : String) (vt : value_type)
    (mt : match_type) (progname : String) (rs : List getopt_ret)
    (v : main_vars) :
    ((parse_value_type s vt).1 = 0 ↔ s ∈ ["number", "string", "boolean"]) ∧
    parse_value_type "number" vt = (0, vt_number) ∧
    parse_value_type "string" vt = (0, vt_string) ∧
    parse_value_type "boolean" vt = (0, vt_bool) ∧
    (s ∉ ["number", "string", "boolean"] →
      parse_value_type s vt = (1, vt) ∧
      (option_loop progname (getopt_ret.t s :: rs) v).2 =
        Sum.inl EXIT_FAILURE) ∧
    ((parse_match_type s mt).1 = 0 ↔
      s ∈ ["strict", "loose", "warn", "ignore"]) ∧
    parse_match_type "strict" mt = (0, mt_strict) ∧
    parse_match_type "loose" mt = (0, mt_loose) ∧
    parse_match_type "warn" mt = (0, mt_warn) ∧
    parse_match_type "ignore" mt = (0, mt_ignore) ∧
    (s ∉ ["strict", "loose", "warn", "ignore"] →
      parse_match_type s mt = (1, mt) ∧
      (option_loop progname (getopt_ret.m s :: rs) v).2 =
        Sum.inl EXIT_FAILURE) ∧
    EXIT_FAILURE ≠ 0 := by
  refine ⟨?_, by simp [parse_value_type], by simp [parse_value_type],
    by simp [parse_value_type], ?_, ?_, by simp [parse_match_type],
    by simp [parse_match_type], by simp [parse_match_type],
    by simp [parse_match_type], ?_, by decide⟩
  · unfold parse_value_type
    split_ifs with h1 h2 h3 <;> simp_all [eq_comm]
  · intro hs
    simp only [List.mem_cons, List.mem_singleton, List.not_mem_nil, or_false,
      not_or] at hs
    obtain ⟨h1, h2, h3⟩ := hs
    have hp : parse_value_type s vt = (1, vt) := by
      simp [parse_value_type, Ne.symm h1, Ne.symm h2, Ne.symm h3]
    refine ⟨hp, ?_⟩
    have hp' : parse_value_type s v.expect_type = (1, v.expect_type) := by
      simp [parse_value_type, Ne.symm h1, Ne.symm h2, Ne.symm h3]
    simp [option_loop, hp']
  · unfold parse_match_type
    split_ifs with h1 h2 h3 h4 <;> simp_all [eq_comm]
  · intro hs
    simp only [List.mem_cons, List.mem_singleton, List.not_mem_nil, or_false,
      not_or] at hs
    obtain ⟨h1, h2, h3, h4⟩ := hs
    have hp : parse_match_type s mt = (1, mt) := by
      simp [parse_match_type, Ne.symm h1, Ne.symm h2, Ne.symm h3, Ne.symm h4]
    refine ⟨hp, ?_⟩
    have hp' : parse_match_type s v.mtch = (1, v.mtch) := by
      simp [parse_match_type, Ne.symm h1, Ne.symm h2, Ne.symm h3, Ne.symm h4]
    simp [option_loop, hp']

/-! ## `main` -/

theorem parse_match_type_rc (str : String) (out₁ out₂ : match_type) :
    (parse_match_type str out₁).1 = (parse_match_type str out₂).1 := by
  unfold parse_match_type
  split_ifs <;> rfl

theorem parse_value_type_rc (str : String) (out₁ out₂ : value_type) :
    (parse_value_type str out₁).1 = (parse_value_type str out₂).1 := by
  unfold parse_value_type
  split_ifs <;> rfl

theorem loads_append (es₁ es₂ : List Event) :
    loads (es₁ ++ es₂) = loads es₁ ++ loads es₂ := by
  induction es₁ with
  | nil => rfl
  | cons e es ih => cases e <;> simp [loads, ih]

theorem written_append (dest : FILE) (es₁ es₂ : List Event) :
    written dest (es₁ ++ es₂) = written dest es₁ ++ written dest es₂ := by
  induction es₁ with
  | nil => rfl
  | cons e es ih =>
    cases e with
    | write d text => by_cases h : d = dest <;> simp [written, h, ih]
    | config_read fname => simp [written, ih]
    | config_destroy => simp [written, ih]

theorem written_stdout_stderr (diags : List String) :
    written FILE.stdout (diags.map (Event.write FILE.stderr)) = [] := by
  induction diags with
  | nil => rfl
  | cons d ds ih => simp [written, ih]

/-- The loop meets neither a help option nor a rejected value: it writes
diagnostics only and leaves through `break`. -/
theorem option_loop_completes (progname : String) (rets : List getopt_ret)
    (hrets : ∀ r ∈ rets, r ≠ getopt_ret.h ∧ rejected r = false)
    (v : main_vars) :
    ∃ (diags : List String) (v' : main_vars),
      option_loop progname rets v =
        (diags.map (Event.write FILE.stderr), Sum.inr v') := by
  induction rets generalizing v with
  | nil => exact ⟨[], v, by simp [option_loop]⟩
  | cons r rs ih =>
    have hrs : ∀ r' ∈ rs, r' ≠ getopt_ret.h ∧ rejected r' = false :=
      fun r' hr' => hrets r' (List.mem_cons_of_mem _ hr')
    have hr := hrets r (List.mem_cons_self _ _)
    cases r with
    | f optarg => simpa [option_loop] using ih hrs _
    | h => exact absurd rfl hr.1
    | m optarg =>
      have hrc : (parse_match_type optarg v.mtch).1 = 0 := by
        rw [parse_match_type_rc optarg v.mtch mt_warn]
        simpa [rejected] using hr.2
      obtain ⟨diags, v', hd⟩ :=
        ih hrs { v with mtch := (parse_match_type optarg v.mtch).2 }
      exact ⟨diags, v', by simp [option_loop, hrc, hd]⟩
    | t optarg =>
      have hrc : (parse_value_type optarg v.expect_type).1 = 0 := by
        rw [parse_value_type_rc optarg v.expect_type vt_unspec]
        simpa [rejected] using hr.2
      obtain ⟨diags, v', hd⟩ :=
        ih hrs { v with expect_type := (parse_value_type optarg v.expect_type).2 }
      exact ⟨diags, v', by simp [option_loop, hrc, hd]⟩
    | unknown diag =>
      obtain ⟨diags, v', hd⟩ := ih hrs v
      exact ⟨diag :: diags, v', by simp [option_loop, hd]⟩

/-- The loop never loads a document, and without a help option it can only
return `EXIT_FAILURE`. -/
theorem option_loop_no_load (progname : String) (rets : List getopt_ret)
    (v : main_vars) :
    loads (option_loop progname rets v).1 = [] ∧
      (getopt_ret.h ∉ rets → ∀ code,
        (option_loop progname rets v).2 = Sum.inl code → code = EXIT_FAILURE) := by
  induction rets generalizing v with
  | nil => simp [option_loop, loads]
  | cons r rs ih =>
    cases r with
    | f optarg => simpa [option_loop] using ih _
    | h => simp [option_loop, print_usage, loads]
    | m optarg =>
      by_cases hrc : (parse_match_type optarg v.mtch).1 = 0
      · simpa [option_loop, hrc] using ih _
      · simp [option_loop, hrc, loads]
    | t optarg =>
      by_cases hrc : (parse_value_type optarg v.expect_type).1 = 0
      · simpa [option_loop, hrc] using ih _
      · simp [option_loop, hrc, loads]
    | unknown diag => simpa [option_loop, loads] using ih v

/-- C9 as stated fails. With no key on the command line, `-h` sends the
usage text to standard output and the run returns `EXIT_SUCCESS`; and a
rejected `-m` value ends the run before any usage text is written. -/
theorem main_no_key_counterexample :
    (getopt_calls world0.posixly_correct "config-get" false ["-h"] []).2 =
      [] ∧
    main world0 "config-get" ["-h"] =
      ⟨[Event.write FILE.stdout (usage_text "config-get")],
        Status.exited EXIT_SUCCESS⟩ ∧
    written FILE.stderr (main world0 "config-get" ["-h"]).events = [] ∧
    (getopt_calls world0.posixly_correct "config-get" false
        ["-m", "bogus"] []).2 = [] ∧
    main world0 "config-get" ["-m", "bogus"] =
      ⟨[Event.write FILE.stderr "Unrecognized match type: bogus\n"],
        Status.exited EXIT_FAILURE⟩ :=
  ⟨by decide, rfl, by decide, by decide, by decide⟩

/-- C9, amended. On a command line whose option scan leaves no operand
(no key), `main` never loads a document, and returns `EXIT_FAILURE` unless
the scan yields a help option; when the scan yields neither a help option
nor a rejected `-m` or `-t` value, `main` writes nothing to standard output
and, after the diagnostics of the scan, the usage text to standard error,
and returns `EXIT_FAILURE`. -/
theorem main_no_key (w : World) (progname : String) (args : List String)
    (rets : List getopt_ret)
    (hscan : getopt_calls w.posixly_correct progname false args [] =
      (rets, [])) :
    loads (main w progname args).events = [] ∧
    (getopt_ret.h ∉ rets →
      (main w progname args).status = Status.exited EXIT_FAILURE) ∧
    ((∀ r ∈ rets, r ≠ getopt_ret.h ∧ rejected r = false) →
      (main w progname args).status = Status.exited EXIT_FAILURE ∧
      written FILE.stdout (main w progname args).events = [] ∧
      ∃ diags : List String,
        (main w progname args).events =
          diags.map (Event.write FILE.stderr) ++
            [Event.write FILE.stderr (usage_text progname)]) := by
  have hl := option_loop_no_load progname rets ⟨none, vt_unspec, mt_warn⟩
  refine ⟨?_, ?_, ?_⟩
  · rcases hloop : option_loop progname rets ⟨none, vt_unspec, mt_warn⟩ with
      ⟨es, code | v⟩
    · rw [hloop] at hl
      simpa [main, hscan, hloop] using hl.1
    · rw [hloop] at hl
      simp only [main, hscan, hloop, loads_append, hl.1, print_usage]
      rfl
  · intro hh
    rcases hloop : option_loop progname rets ⟨none, vt_unspec, mt_warn⟩ with
      ⟨es, code | v⟩
    · rw [hloop] at hl
      have hc := hl.2 hh code rfl
      simp only [main, hscan, hloop, hc]
    · simp only [main, hscan, hloop]
  · intro hrets
    obtain ⟨diags, v', hd⟩ := option_loop_completes progname rets hrets
      ⟨none, vt_unspec, mt_warn⟩
    have hmain : main w progname args =
        ⟨diags.map (Event.write FILE.stderr) ++
          [Event.write FILE.stderr (usage_text progname)],
          Status.exited EXIT_FAILURE⟩ := by
      simp only [main, hscan, hd, print_usage]
    rw [hmain]
    refine ⟨rfl, ?_, diags, rfl⟩
    simp [written_append, written_stdout_stderr, written]

theorem main_no_key_witness :
    (getopt_calls world0.posixly_correct "config-get" false
        ["-m", "loose", "--nope", "-f", "name"] []).2 = [] ∧
    loads (main world0 "config-get" ["-m", "loose", "--nope", "-f", "name"]).events =
      [] ∧
    (main world0 "config-get" ["-m", "loose", "--nope", "-f", "name"]).status =
      Status.exited EXIT_FAILURE ∧
    written FILE.stdout
      (main world0 "config-get" ["-m", "loose", "--nope", "-f", "name"]).events =
      [] ∧
    ∃ diags : List String,
      (main world0 "config-get" ["-m", "loose", "--nope", "-f", "name"]).events =
        diags.map (Event.write FILE.stderr) ++
          [Event.write FILE.stderr (usage_text "config-get")] :=
  have key := main_no_key world0 "config-get"
    ["-m", "loose", "--nope", "-f", "name"]
    [getopt_ret.m "loose",
      getopt_ret.unknown "config-get: unrecognized option '--nope'\n",
      getopt_ret.f "name"] (by decide)
  ⟨by decide, key.1, key.2.1 (by decide), (key.2.2 (by decide)).2⟩

end ConfigGet
